import Mathlib

/-!
A shallow embedding of the MSVA workflow-orchestration core
(`src/orchestration/base_orchestrator.py` and
`src/orchestration/startup_validator.py`) and proofs about it.

Python `dict[str, Any]` payloads are modelled by `PyVal` / `PyDict`
(association lists of string keys, first binding wins, as in the source all
payload keys are strings).  Fallible Python expressions (subscripts that can
raise `KeyError`/`TypeError`/`IndexError`/`AttributeError`) are modelled in
the `Option` monad: `none` means the Python code raises.
-/

namespace MSVA

/-- A Python value as it appears in the stage payloads: numbers, strings,
booleans, `None`, lists and string-keyed dicts. -/
inductive PyVal where
  | num (n : Int)
  | str (s : String)
  | bool (b : Bool)
  | null
  | list (xs : List PyVal)
  | dict (d : List (String × PyVal))
deriving Repr

/-- Python `v == "s"` for a string literal on the right: true exactly when
`v` is that string (values of different types compare unequal, without
raising). -/
def pyEqStr (v : PyVal) (s : String) : Bool :=
  match v with
  | .str t => t = s
  | _ => false

/-- Python `max(a, b)` / `min(a, b)` on two ints. -/
def pymax (a b : Int) : Int := if a ≥ b then a else b

/-- See `pymax`. -/
def pymin (a b : Int) : Int := if a ≤ b then a else b

/-- A Python `Dict[str, Any]` (a top-level stage payload). -/
abbrev PyDict := List (String × PyVal)

/-- Dict lookup: `d[k]` / `k in d` use the first binding for `k`. -/
def plookup (d : PyDict) (k : String) : Option PyVal :=
  match d with
  | [] => none
  | (k2, v) :: rest => if k2 = k then some v else plookup rest k

/-- Python truthiness of a value (`if x:`). -/
def truthy : PyVal → Bool
  | .num n => n != 0
  | .str s => s ≠ ""
  | .bool b => b
  | .null => false
  | .list xs => !xs.isEmpty
  | .dict d => !d.isEmpty

/-- A value used in a numeric comparison (`x > 5`): ints and bools compare as
numbers, anything else raises `TypeError` (= `none`). -/
def asNum : PyVal → Option Int
  | .num n => some n
  | .bool b => some (if b then 1 else 0)
  | _ => none

/-- Bool test for list-infix on characters, used for Python substring tests. -/
def listInfixB (p : List Char) : List Char → Bool
  | [] => p.isEmpty
  | c :: t => p.isPrefixOf (c :: t) || listInfixB p t

/-- Python `s in container` with a string on the left: key test for dicts,
membership for lists, substring test for strings; iterating a number or
`None` raises `TypeError` (= `none`). -/
def pyContainsStr (s : String) : PyVal → Option Bool
  | .dict d => some (d.any (fun kv => kv.1 = s))
  | .list xs => some (xs.any (fun e => pyEqStr e s))
  | .str t => some (listInfixB s.toList t.toList)
  | _ => none

/-- Python `container[s]` with a string key: dict lookup (`KeyError` when the
key is absent); subscripting a list/string/number with a string raises
`TypeError`. -/
def pySubscript (container : PyVal) (s : String) : Option PyVal :=
  match container with
  | .dict d => plookup d s
  | _ => none

/-- Python `container[0]`: head of a non-empty list (`IndexError` on empty),
first character of a non-empty string; `0` is not a key of a string-keyed
dict (`KeyError`); numbers and `None` raise `TypeError`. -/
def pyIndex0 : PyVal → Option PyVal
  | .list (x :: _) => some x
  | .str s =>
      match s.toList with
      | c :: _ => some (.str (String.mk [c]))
      | [] => none
  | _ => none

/-- Python `.get(k, default)`: only dicts have `.get`; anything else raises
`AttributeError`. -/
def pyGet (container : PyVal) (k : String) (dflt : PyVal) : Option PyVal :=
  match container with
  | .dict d => some ((plookup d k).getD dflt)
  | _ => none

/-- Python `.get(k)` with no default (absent key gives `None`). -/
def pyGetNone (container : PyVal) (k : String) : Option PyVal :=
  pyGet container k .null

/-- Python `len(x)`: length of a list, string or dict; `TypeError` on numbers
and `None`. -/
def pyLen : PyVal → Option Nat
  | .list xs => some xs.length
  | .str s => some s.length
  | .dict d => some d.length
  | _ => none

/-- Iterating a Python value (`for c in xs`): the elements of a list, the
one-character strings of a string, the keys of a dict; `TypeError`
otherwise. -/
def iterElems : PyVal → Option (List PyVal)
  | .list xs => some xs
  | .str s => some (s.toList.map (fun c => .str (String.mk [c])))
  | .dict d => some (d.map (fun kv => .str kv.1))
  | _ => none

/-!
## The validation score

`StartupValidatorOrchestrator._calculate_validation_score` walks the four
stage payloads sequentially, mutating a running score that starts at 50 and
finally clamping to [0,100].  Each block below is the corresponding `if`
block of the source, threaded in source order; `none` is a raised exception.
-/

/-- Market factors block of `_calculate_validation_score` (lines 416-438). -/
def scoreMarket (market_data : PyDict) (score : Int) : Option Int :=
  match plookup market_data "market_trends" with
  | none => some score
  | some trends => do
    let hasSize ← pyContainsStr "market_size" trends
    let score ←
      if hasSize then do
        let v ← pySubscript trends "market_size"
        let market_size ← asNum v
        pure (if market_size > 1000000000 then score + 10
              else if market_size > 100000000 then score + 5
              else if market_size < 10000000 then score - 5
              else score)
      else pure score
    let hasGrowth ← pyContainsStr "growth_rate" trends
    if hasGrowth then do
      let v ← pySubscript trends "growth_rate"
      let growth_rate ← asNum v
      pure (if growth_rate > 20 then score + 10
            else if growth_rate > 10 then score + 5
            else if growth_rate < 5 then score - 5
            else if growth_rate < 0 then score - 10
            else score)
    else pure score

/-- `sum(1 for c in competitors if c.get("type") == "direct")`: every element
must support `.get` (be a dict), then count those whose type is "direct". -/
def countDirect (competitors : PyVal) : Option Nat := do
  let elems ← iterElems competitors
  let flags ← elems.mapM (fun c =>
    match c with
    | .dict d => some (pyEqStr ((plookup d "type").getD .null) "direct")
    | _ => none)
  pure (flags.count true)

/-- Competitor factors block of `_calculate_validation_score`
(lines 440-455; nested inside `if "competitors" in competitor_data`). -/
def scoreCompetitor (competitor_data : PyDict) (score : Int) : Option Int :=
  match plookup competitor_data "competitors" with
  | none => some score
  | some competitors => do
    let num_direct ← countDirect competitors
    let score := if num_direct = 0 then score + 5
                 else if num_direct > 10 then score - 5
                 else score
    match plookup competitor_data "market_gaps" with
    | none => pure score
    | some gaps =>
      if truthy gaps then do
        let score := score + 5
        let n ← pyLen gaps
        pure (if n > 3 then score + 5 else score)
      else pure score

/-- Customer-persona factors block of `_calculate_validation_score`
(lines 457-477). -/
def scorePersona (persona_data : PyDict) (score : Int) : Option Int :=
  match plookup persona_data "personas" with
  | none => some score
  | some personas =>
    if truthy personas then do
      let p0 ← pyIndex0 personas
      let hasPain ← pyContainsStr "pain_level" p0
      let score ←
        if hasPain then do
          let pain_level ← pySubscript p0 "pain_level"
          pure (if pyEqStr pain_level "high" then score + 10
                else if pyEqStr pain_level "medium" then score + 5
                else if pyEqStr pain_level "low" then score - 5
                else score)
        else pure score
      let p0b ← pyIndex0 personas
      let hasWtp ← pyContainsStr "willingness_to_pay" p0b
      if hasWtp then do
        let wtp ← pySubscript p0b "willingness_to_pay"
        pure (if pyEqStr wtp "high" then score + 5
              else if pyEqStr wtp "low" then score - 5
              else score)
      else pure score
    else some score

/-- MVP factors block of `_calculate_validation_score` (lines 479-494).
Note `mvp_data["development_time"]["weeks"]` is a bare subscript (raises on
a missing `"weeks"` key) while the cost block uses `.get("min", 0)`. -/
def scoreMvp (mvp_data : PyDict) (score : Int) : Option Int := do
  let score ←
    match plookup mvp_data "development_time" with
    | none => pure score
    | some dt => do
      let w ← pySubscript dt "weeks"
      let dev_time ← asNum w
      pure (if dev_time < 6 then score + 5
            else if dev_time > 12 then score - 5
            else score)
  match plookup mvp_data "cost_estimate" with
  | none => pure score
  | some ce => do
    let m ← pyGet ce "min" (.num 0)
    let min_cost ← asNum m
    pure (if min_cost < 15000 then score + 5
          else if min_cost > 50000 then score - 5
          else score)

/-- `StartupValidatorOrchestrator._calculate_validation_score`
(startup_validator.py lines 402-497): start at 50, apply the four payload
blocks in source order, clamp to [0,100].  `none` models a raised
exception. -/
def calculate_validation_score (market_data competitor_data persona_data mvp_data : PyDict) :
    Option Int := do
  let s0 : Int := 50
  let s1 ← scoreMarket market_data s0
  let s2 ← scoreCompetitor competitor_data s1
  let s3 ← scorePersona persona_data s2
  let s4 ← scoreMvp mvp_data s3
  pure (pymax 0 (pymin 100 s4))

/-!
## The Execution Guard (`BaseOrchestrator.run_agent` / `run_tool`)

An agent collaborator is modelled by the outcomes of its successive
invocations: invocation `i` either times out under `asyncio.wait_for`,
raises an exception (with the exception's `str`), or returns a value.
Agents may return a ready-made `AgentOutput` or a plain dict that the guard
wraps.  The guard model returns the Python return value (`none` models the
implicit `return None` when `max_retries == 0` lets the loop body never
run), the number of collaborator invocations, and the list of
`_save_result` checkpoint writes it performed (key, raw saved value).
-/

/-- `AgentOutput` (base_orchestrator.py lines 14-20). -/
structure AgentOutput where
  agent_name : String
  message_type : String
  content : PyDict
  success : Bool
  metadata : Option PyDict
deriving Repr

/-- What an agent invocation hands back when it neither times out nor
raises: either an `AgentOutput` instance or a plain dict to be wrapped. -/
inductive AgentRet where
  | output (o : AgentOutput)
  | value (d : PyDict)
deriving Repr

/-- Outcome of one `await asyncio.wait_for(agent.process(...), timeout)`. -/
inductive AgentAttempt where
  | timeout
  | raises (msg : String)
  | returns (r : AgentRet)
deriving Repr

/-- `True` when the attempt counts as a failed attempt (timeout or raised
exception). -/
def AgentAttempt.fails : AgentAttempt → Bool
  | .timeout => true
  | .raises _ => true
  | .returns _ => false

/-- Python `str(e)` of the exception that escapes the retry loop:
`str(asyncio.TimeoutError())` is the empty string, an ordinary exception
shows its message. -/
def strOfError : AgentAttempt → String
  | .timeout => ""
  | .raises m => m
  | .returns _ => ""

/-- `if self.config.save_intermediate_results and self.current_workflow:` —
`current_workflow` is truthy when it is a non-empty string. -/
def saveCond (saveIntermediate : Bool) (currentWorkflow : Option String) : Bool :=
  saveIntermediate && (match currentWorkflow with
                       | some w => w ≠ ""
                       | none => false)

/-- The error `AgentOutput` built by `run_agent`'s outer `except` clause. -/
def errorOutput (agent_name : String) (e : String) : AgentOutput :=
  ⟨agent_name, "error", [("error", .str e)], false, none⟩

/-- The `for attempt in range(max_retries)` loop of `run_agent`
(base_orchestrator.py lines 161-191), with the outer `except` (lines
193-200) folded in: a failure on the last attempt (`attempt ==
max_retries - 1`) re-raises and is caught outside, producing the error
`AgentOutput`.  `i` is the attempt index, `fuel` the remaining iterations
(`fuel = maxRetries - i` at every call). -/
def run_agent_loop (agent_name : String) (attempts : Nat → AgentAttempt)
    (maxRetries : Nat) (saveI : Bool) (curWf : Option String) :
    Nat → Nat → Option AgentOutput × Nat × List (String × AgentRet)
  | _, 0 => (none, 0, [])
  | i, fuel + 1 =>
    match attempts i with
    | .returns r =>
        let saves := if saveCond saveI curWf
          then [(curWf.getD "" ++ "_" ++ agent_name, r)] else []
        let out := match r with
          | .output o => o
          | .value d => ⟨agent_name, "result", d, true, none⟩
        (some out, 1, saves)
    | .timeout =>
        if i = maxRetries - 1 then
          (some (errorOutput agent_name (strOfError .timeout)), 1, [])
        else
          let rest := run_agent_loop agent_name attempts maxRetries saveI curWf (i + 1) fuel
          (rest.1, rest.2.1 + 1, rest.2.2)
    | .raises m =>
        if i = maxRetries - 1 then
          (some (errorOutput agent_name (strOfError (.raises m))), 1, [])
        else
          let rest := run_agent_loop agent_name attempts maxRetries saveI curWf (i + 1) fuel
          (rest.1, rest.2.1 + 1, rest.2.2)

/-- `BaseOrchestrator.run_agent` (base_orchestrator.py lines 142-200), for a
resolved agent (the `agent_name not in self.agents` ValueError is raised
before any of this).  Returns (Python return value, number of
`agent.process` invocations, checkpoint writes). -/
def run_agent (agent_name : String) (attempts : Nat → AgentAttempt)
    (maxRetries : Nat) (saveI : Bool) (curWf : Option String) :
    Option AgentOutput × Nat × List (String × AgentRet) :=
  run_agent_loop agent_name attempts maxRetries saveI curWf 0 maxRetries

/-- Outcome of one `await asyncio.wait_for(tool.run(**kwargs), timeout)`. -/
inductive ToolAttempt where
  | timeout
  | raises (msg : String)
  | returns (v : PyVal)
deriving Repr

/-- The retry loop of `run_tool` (base_orchestrator.py lines 219-242) with
the outer `except` (lines 244-249) folded in: exhaustion returns the
`{status: "error", message: ...}` dict.  A value returned by the tool is
passed through unchanged — `run_tool` never inspects it. -/
def run_tool_loop (tool_name : String) (attempts : Nat → ToolAttempt)
    (maxRetries : Nat) (saveI : Bool) (curWf : Option String) :
    Nat → Nat → Option PyVal × Nat × List (String × PyVal)
  | _, 0 => (none, 0, [])
  | i, fuel + 1 =>
    match attempts i with
    | .returns v =>
        let saves := if saveCond saveI curWf
          then [(curWf.getD "" ++ "_" ++ tool_name, v)] else []
        (some v, 1, saves)
    | .timeout =>
        if i = maxRetries - 1 then
          (some (.dict [("status", .str "error"),
                        ("message", .str ("Tool execution failed: " ++ ""))]), 1, [])
        else
          let rest := run_tool_loop tool_name attempts maxRetries saveI curWf (i + 1) fuel
          (rest.1, rest.2.1 + 1, rest.2.2)
    | .raises m =>
        if i = maxRetries - 1 then
          (some (.dict [("status", .str "error"),
                        ("message", .str ("Tool execution failed: " ++ m))]), 1, [])
        else
          let rest := run_tool_loop tool_name attempts maxRetries saveI curWf (i + 1) fuel
          (rest.1, rest.2.1 + 1, rest.2.2)

/-- `BaseOrchestrator.run_tool` (base_orchestrator.py lines 202-249), for a
resolved tool. -/
def run_tool (tool_name : String) (attempts : Nat → ToolAttempt)
    (maxRetries : Nat) (saveI : Bool) (curWf : Option String) :
    Option PyVal × Nat × List (String × PyVal) :=
  run_tool_loop tool_name attempts maxRetries saveI curWf 0 maxRetries

/-!
## Report builders and the full-validation pipeline
(`startup_validator.py`)
-/

/-- `StartupIdea` (startup_validator.py lines 17-26). -/
structure StartupIdea where
  name : String
  description : String
  target_audience : Option String
  industry : Option String
  problem_statement : Option String
  solution : Option String
  revenue_model : Option String
  initial_thoughts : Option String
deriving Repr

/-- An optional string field as a Python value. -/
def optStrVal : Option String → PyVal
  | some s => .str s
  | none => .null

/-- `idea.dict()`: the pydantic dict of a `StartupIdea`, in field order,
with `None` for unset optional fields. -/
def ideaDict (i : StartupIdea) : PyVal :=
  .dict [("name", .str i.name), ("description", .str i.description),
         ("target_audience", optStrVal i.target_audience),
         ("industry", optStrVal i.industry),
         ("problem_statement", optStrVal i.problem_statement),
         ("solution", optStrVal i.solution),
         ("revenue_model", optStrVal i.revenue_model),
         ("initial_thoughts", optStrVal i.initial_thoughts)]

/-- A single-quote character, for Python `repr`/f-string output. -/
def squote : String := String.mk [Char.ofNat 39]

/-- Python `repr` of a payload value (as used by `str()` on containers). -/
def reprVal : PyVal → String
  | .num n => toString n
  | .str s => squote ++ s ++ squote
  | .bool b => if b then "True" else "False"
  | .null => "None"
  | .list xs => "[" ++ ", ".intercalate (xs.attach.map (fun x => reprVal x.1)) ++ "]"
  | .dict d => "\x7b" ++ ", ".intercalate
      (d.attach.map (fun kv => squote ++ kv.1.1 ++ squote ++ ": " ++ reprVal kv.1.2)) ++ "\x7d"
decreasing_by
  · have h := List.sizeOf_lt_of_mem x.2
    simp only [PyVal.list.sizeOf_spec]
    omega
  · obtain ⟨⟨a, b⟩, hm⟩ := kv
    have h := List.sizeOf_lt_of_mem hm
    simp only [Prod.mk.sizeOf_spec] at h
    simp only [PyVal.dict.sizeOf_spec]
    omega

/-- Python `str(x)`, as interpolated by an f-string. -/
def pyStr : PyVal → String
  | .str s => s
  | v => reprVal v

/-- Python `x[:3]`: first three items of a list or characters of a string;
slicing anything else here raises `TypeError`. -/
def pySlice3 : PyVal → Option PyVal
  | .list xs => some (.list (xs.take 3))
  | .str s => some (.str (String.mk (s.toList.take 3)))
  | _ => none

/-- Python `", ".join(x)`: every iterated element must be a string. -/
def pyJoinComma (v : PyVal) : Option String := do
  let elems ← iterElems v
  let strs ← elems.mapM (fun e => match e with | .str s => some s | _ => none)
  pure (", ".intercalate strs)

/-- Market block of `_generate_recommendations` (lines 350-359). -/
def recsMarket (market_data : PyDict) : Option (List String) :=
  match plookup market_data "market_trends" with
  | none => some []
  | some trends => do
    let c1 ← pyContainsStr "growth_rate" trends
    let cond1 ←
      if c1 then do
        let v ← pySubscript trends "growth_rate"
        let g ← asNum v
        pure (decide (g < 5))
      else pure false
    if cond1 then
      pure ["Consider pivoting to a higher-growth market segment as the current market shows low growth."]
    else do
      let c2 ← pyContainsStr "growth_rate" trends
      let cond2 ←
        if c2 then do
          let v ← pySubscript trends "growth_rate"
          let g ← asNum v
          pure (decide (g > 20))
        else pure false
      if cond2 then
        pure ["The market is growing rapidly. Consider securing funding quickly to capitalize on growth opportunities."]
      else pure []

/-- Competitor block of `_generate_recommendations` (lines 361-367). -/
def recsCompetitor (competitor_data : PyDict) : Option (List String) :=
  match plookup competitor_data "market_gaps" with
  | none => some []
  | some gaps =>
    if truthy gaps then do
      let sliced ← pySlice3 gaps
      let joined ← pyJoinComma sliced
      pure ["Focus on these identified gaps in the market: " ++ joined]
    else some []

/-- Persona block of `_generate_recommendations` (lines 369-376). -/
def recsPersona (persona_data : PyDict) : Option (List String) :=
  match plookup persona_data "personas" with
  | none => some []
  | some personas =>
    if truthy personas then do
      let primary ← pyIndex0 personas
      let c ← pyContainsStr "pain_points" primary
      if c then do
        let pts ← pySubscript primary "pain_points"
        let sliced ← pySlice3 pts
        let joined ← pyJoinComma sliced
        pure ["Prioritize addressing these customer pain points: " ++ joined]
      else pure []
    else some []

/-- MVP blocks of `_generate_recommendations` (lines 378-389). -/
def recsMvp (mvp_data : PyDict) : Option (List String) := do
  let featureRecs :=
    match plookup mvp_data "features" with
    | some f =>
      if truthy f then
        ["Focus on building and validating the core MVP features before expanding scope."]
      else []
    | none => []
  let riskRecs ←
    match plookup mvp_data "assumptions_and_risks" with
    | none => pure []
    | some ar => do
      let elems ← iterElems ar
      let risks ← elems.filterM (fun it =>
        (pySubscript it "type").map (fun t => pyEqStr t "risk"))
      match risks with
      | [] => pure []
      | r0 :: _ => do
        let d ← pySubscript r0 "description"
        pure ["Mitigate key risks early: " ++ pyStr d]
  pure (featureRecs ++ riskRecs)

/-- `StartupValidatorOrchestrator._generate_recommendations`
(startup_validator.py lines 339-400). -/
def generate_recommendations (market_data competitor_data persona_data mvp_data : PyDict) :
    Option (List String) := do
  let r1 ← recsMarket market_data
  let r2 ← recsCompetitor competitor_data
  let r3 ← recsPersona persona_data
  let r4 ← recsMvp mvp_data
  let recommendations := r1 ++ r2 ++ r3 ++ r4
  if recommendations.length < 3 then
    pure (recommendations ++
      ["Validate your assumptions with real customer interviews before building the MVP.",
       "Consider running small experiments to test key hypotheses about your target market."])
  else pure recommendations

/-- `StartupValidatorOrchestrator._generate_error_report`
(startup_validator.py lines 499-524).  The keyword arguments default to
`None`; a falsy (empty) payload is omitted from the report by the
`if market_data:` style checks.  `ts` stands for `datetime.now().isoformat()`. -/
def generate_error_report (error_message : String) (idea : StartupIdea) (ts : String)
    (market_data competitor_data persona_data : Option PyDict) : PyDict :=
  let report : PyDict :=
    [("success", .bool false), ("error", .str error_message),
     ("idea", ideaDict idea), ("timestamp", .str ts)]
  let report := match market_data with
    | some md => if md.isEmpty then report else report ++ [("market_analysis", .dict md)]
    | none => report
  let report := match competitor_data with
    | some cd => if cd.isEmpty then report else report ++ [("competitor_analysis", .dict cd)]
    | none => report
  match persona_data with
  | some pd =>
    if pd.isEmpty then report
    else report ++ [("customer_personas", (plookup pd "personas").getD (.list []))]
  | none => report

/-- `StartupValidatorOrchestrator._generate_interim_report`
(startup_validator.py lines 526-548), checkpoint write elided. -/
def generate_interim_report (idea : StartupIdea) (ts : String)
    (market_data competitor_data persona_data : PyDict) : PyDict :=
  [("success", .bool true), ("idea", ideaDict idea),
   ("market_analysis", .dict market_data),
   ("competitor_analysis", .dict competitor_data),
   ("customer_personas", (plookup persona_data "personas").getD (.list [])),
   ("timestamp", .str ts), ("status", .str "interim"),
   ("message", .str "MVP planning was skipped due to user request")]

/-- Pydantic validation of the `customer_personas: List[Dict[str, Any]]`
field of `StartupValidationReport`: the value must be a list of dicts. -/
def asListOfDicts : PyVal → Option (List PyDict)
  | .list xs => xs.mapM (fun x => match x with | .dict d => some d | _ => none)
  | _ => none

/-- `StartupValidatorOrchestrator._generate_validation_report`
(startup_validator.py lines 291-337) followed by `report.dict()`:
recommendations are computed first, then the score, then the
`StartupValidationReport` is constructed (validating the personas list);
`none` models any exception raised along the way. -/
def generate_validation_report (idea : StartupIdea) (ts : String)
    (market_data competitor_data persona_data mvp_data : PyDict) : Option PyDict := do
  let recommendations ← generate_recommendations market_data competitor_data persona_data mvp_data
  let validation_score ← calculate_validation_score market_data competitor_data persona_data mvp_data
  let personas ← asListOfDicts ((plookup persona_data "personas").getD (.list []))
  pure [("idea", ideaDict idea), ("market_analysis", .dict market_data),
        ("competitor_analysis", .dict competitor_data),
        ("customer_personas", .list (personas.map PyVal.dict)),
        ("mvp_plan", .dict mvp_data),
        ("recommendations", .list (recommendations.map PyVal.str)),
        ("validation_score", .num validation_score),
        ("timestamp", .str ts)]

/-- `StartupValidatorOrchestrator.workflow_full_validation`
(startup_validator.py lines 60-180), for an already-parsed idea, with the
four Execution Guard results passed in (`run_agent` always returns an
`AgentOutput` when `max_retries >= 1`) and checkpoint writes elided.
`hitl` is `config.human_in_the_loop` and `human_answer` the feedback gate's
reply (the gate is only consulted when `hitl` is true).  `none` models an
exception escaping the workflow (report synthesis can raise). -/
def workflow_full_validation (hitl : Bool) (human_answer : String)
    (idea : StartupIdea) (ts : String)
    (market_result competitor_result persona_result mvp_result : AgentOutput) :
    Option PyDict :=
  if !market_result.success then
    some (generate_error_report "Market research failed" idea ts none none none)
  else
    let market_data := market_result.content
    if !competitor_result.success then
      some (generate_error_report "Competitor analysis failed" idea ts
        (some market_data) none none)
    else
      let competitor_data := competitor_result.content
      if !persona_result.success then
        some (generate_error_report "Customer persona generation failed" idea ts
          (some market_data) (some competitor_data) none)
      else
        let persona_data := persona_result.content
        if hitl && human_answer ≠ "proceed" then
          some (generate_interim_report idea ts market_data competitor_data persona_data)
        else
          if !mvp_result.success then
            some (generate_error_report "MVP planning failed" idea ts
              (some market_data) (some competitor_data) (some persona_data))
          else
            generate_validation_report idea ts market_data competitor_data
              persona_data mvp_result.content

/-- The error report returned by `workflow_full_validation` when the
competitor-analysis stage fails (startup_validator.py line 100). -/
def competitor_fail_report (idea : StartupIdea) (ts : String) (md : PyDict) : PyDict :=
  generate_error_report "Competitor analysis failed" idea ts (some md) none none

/-!
## The Workflow Engine (`BaseOrchestrator.execute_workflow`)
-/

/-- The orchestrator-instance execution state touched by
`execute_workflow`: `self.current_workflow` and `self.results_store`. -/
structure OrchState where
  current_workflow : Option String
  results_store : List (String × PyVal)
deriving Repr

/-- Python dict assignment `store[k] = v`: update in place or append. -/
def store_set (store : List (String × PyVal)) (k : String) (v : PyVal) :
    List (String × PyVal) :=
  if store.any (fun kv => kv.1 = k) then
    store.map (fun kv => if kv.1 = k then (k, v) else kv)
  else store ++ [(k, v)]

/-- `BaseOrchestrator.execute_workflow` (base_orchestrator.py lines
107-140).  The workflow body is abstracted as a function of the current
workflow name and the results store, returning either a value or a raised
exception together with the store it leaves behind (disk writes of
`_save_result` elided).  `registered` is `workflow_name in self.workflows`. -/
def execute_workflow (workflow_name : String) (registered : Bool) (saveI : Bool)
    (body : Option String → List (String × PyVal) →
      Except String PyVal × List (String × PyVal))
    (st : OrchState) : Except String PyVal × OrchState :=
  if !registered then
    (.error ("Workflow " ++ squote ++ workflow_name ++ squote ++ " not found"), st)
  else
    let (res, store1) := body (some workflow_name) []
    match res with
    | .ok result =>
        let store2 := if saveI then store_set store1 "final_result" result else store1
        (.ok result, ⟨none, store2⟩)
    | .error e => (.error e, ⟨none, store1⟩)

/-!
## Theorems

Helper lemmas first, then one theorem per claim (with witnesses and
counterexamples where applicable).
-/

/-- When every application of the MVP block raises, the whole score
computation raises. -/
theorem calc_mvp_none (m c p v : PyDict)
    (hv : ∀ s : Int, scoreMvp v s = none) :
    calculate_validation_score m c p v = none := by
  unfold calculate_validation_score
  cases hA : scoreMarket m 50 with
  | none => simp [bind, hA]
  | some s1 =>
    cases hB : scoreCompetitor c s1 with
    | none => simp [bind, hA, hB]
    | some s2 =>
      cases hC : scorePersona p s2 with
      | none => simp [bind, hA, hB, hC]
      | some s3 => simp [bind, hA, hB, hC, hv]

/-- When the MVP block is the total adjustment `g`, the score computation is
the first three blocks followed by `g` and the clamp. -/
theorem calc_mvp_some (m c p v : PyDict) (g : Int → Int)
    (hv : ∀ s : Int, scoreMvp v s = some (g s)) :
    calculate_validation_score m c p v =
      Option.map (fun s => pymax 0 (pymin 100 (g s)))
        (Option.bind (Option.bind (scoreMarket m 50) (scoreCompetitor c)) (scorePersona p)) := by
  unfold calculate_validation_score
  cases hA : scoreMarket m 50 with
  | none => simp [bind, hA]
  | some s1 =>
    cases hB : scoreCompetitor c s1 with
    | none => simp [bind, hA, hB]
    | some s2 =>
      cases hC : scorePersona p s2 with
      | none => simp [bind, hA, hB, hC]
      | some s3 => simp [bind, hA, hB, hC, hv]

/-- The retry loop performs at most `fuel` invocations, and at least one
when `fuel ≥ 1`. -/
theorem run_agent_loop_bounds (name : String) (attempts : Nat → AgentAttempt)
    (mr : Nat) (saveI : Bool) (curWf : Option String) :
    ∀ (fuel i : Nat),
      (run_agent_loop name attempts mr saveI curWf i fuel).2.1 ≤ fuel ∧
      (1 ≤ fuel → 1 ≤ (run_agent_loop name attempts mr saveI curWf i fuel).2.1) := by
  intro fuel
  induction fuel with
  | zero => intro i; simp [run_agent_loop]
  | succ n ih =>
    intro i
    unfold run_agent_loop
    cases attempts i with
    | returns r => simp
    | timeout =>
      by_cases hl : i = mr - 1
      · simp [hl]
      · have := ih (i + 1)
        simp [hl]
        omega
    | raises m =>
      by_cases hl : i = mr - 1
      · simp [hl]
      · have := ih (i + 1)
        simp [hl]
        omega

/-- When every attempt times out, the loop exhausts its fuel and produces
the error output whose message is `str(asyncio.TimeoutError())`, the empty
string. -/
theorem run_agent_loop_all_timeouts (name : String) (attempts : Nat → AgentAttempt)
    (mr : Nat) (saveI : Bool) (curWf : Option String)
    (hto : ∀ j, attempts j = AgentAttempt.timeout) :
    ∀ (fuel i : Nat), i + fuel = mr → 1 ≤ fuel →
      run_agent_loop name attempts mr saveI curWf i fuel =
        (some (errorOutput name ""), fuel, []) := by
  intro fuel
  induction fuel with
  | zero => omega
  | succ n ih =>
    intro i hi _
    unfold run_agent_loop
    rw [hto i]
    cases n with
    | zero =>
      have hl : i = mr - 1 := by omega
      simp [hl, strOfError]
    | succ m =>
      have hl : ¬ (i = mr - 1) := by omega
      have hr := ih (i + 1) (by omega) (by omega)
      simp [hl, hr]

/-- When attempt `k` returns and every earlier attempt fails, the loop's
only checkpoint write is the one of attempt `k`. -/
theorem run_agent_loop_saves_success (name w : String) (attempts : Nat → AgentAttempt)
    (mr k : Nat) (r : AgentRet) (hw : w ≠ "")
    (hk : k < mr) (hret : attempts k = .returns r)
    (hfail : ∀ j, j < k → (attempts j).fails = true) :
    ∀ (fuel i : Nat), i + fuel = mr → i ≤ k →
      (run_agent_loop name attempts mr true (some w) i fuel).2.2 =
        [(w ++ "_" ++ name, r)] := by
  intro fuel
  induction fuel with
  | zero => omega
  | succ n ih =>
    intro i hi hik
    unfold run_agent_loop
    by_cases hik2 : i = k
    · subst hik2
      rw [hret]
      simp [saveCond, hw]
    · have hlt : i < k := by omega
      have hf := hfail i hlt
      have hl : ¬ (i = mr - 1) := by omega
      cases ha : attempts i with
      | returns r2 => rw [ha] at hf; simp [AgentAttempt.fails] at hf
      | timeout => simp [hl, ih (i + 1) (by omega) (by omega)]
      | raises m => simp [hl, ih (i + 1) (by omega) (by omega)]

/-- When every attempt fails, the loop writes no checkpoint at all. -/
theorem run_agent_loop_saves_fail (name : String) (attempts : Nat → AgentAttempt)
    (mr : Nat) (saveI : Bool) (curWf : Option String)
    (hfail : ∀ j, j < mr → (attempts j).fails = true) :
    ∀ (fuel i : Nat), i + fuel = mr →
      (run_agent_loop name attempts mr saveI curWf i fuel).2.2 = [] := by
  intro fuel
  induction fuel with
  | zero => intro i _; simp [run_agent_loop]
  | succ n ih =>
    intro i hi
    unfold run_agent_loop
    have hf := hfail i (by omega)
    cases ha : attempts i with
    | returns r2 => rw [ha] at hf; simp [AgentAttempt.fails] at hf
    | timeout =>
      by_cases hl : i = mr - 1
      · simp [hl]
      · simp [hl, ih (i + 1) (by omega)]
    | raises m =>
      by_cases hl : i = mr - 1
      · simp [hl]
      · simp [hl, ih (i + 1) (by omega)]

/-- C1: whenever `_calculate_validation_score` returns a value — for any
four stage payloads whatsoever — that value lies in the closed interval
[0, 100] (it is `max(0, min(100, score))`). -/
theorem validation_score_in_range (m c p v : PyDict) (r : Int)
    (h : calculate_validation_score m c p v = some r) : 0 ≤ r ∧ r ≤ 100 := by
  unfold calculate_validation_score at h
  simp only [bind, Option.bind_eq_some, pure, Option.some.injEq] at h
  obtain ⟨s1, h1, s2, h2, s3, h3, s4, h4, hr⟩ := h
  subst hr
  unfold pymax pymin
  constructor <;> (split_ifs <;> omega)

/-- C1 witness: on four empty payloads the score computation returns 50,
which is within [0, 100]. -/
theorem validation_score_in_range_witness : 0 ≤ (50 : Int) ∧ (50 : Int) ≤ 100 :=
  validation_score_in_range [] [] [] [] 50 rfl

/-- C2: on the spec's worked example — market growth 25 and size 2e9, no
direct competitors, one market gap, primary persona with high pain and high
willingness to pay, a 5-week MVP costing at least 10000 — the raw sum is
105 and `_calculate_validation_score` returns exactly 100. -/
theorem validation_score_spec_example :
    calculate_validation_score
      [("market_trends", PyVal.dict [("growth_rate", .num 25), ("market_size", .num 2000000000)])]
      [("competitors", PyVal.list []), ("market_gaps", PyVal.list [.str "gap1"])]
      [("personas", PyVal.list
        [.dict [("pain_level", .str "high"), ("willingness_to_pay", .str "high")]])]
      [("development_time", PyVal.dict [("weeks", .num 5)]),
       ("cost_estimate", PyVal.dict [("min", .num 10000)])]
      = some 100 := by decide

/-- C3: a market payload whose growth rate is strictly negative scores 45,
not the 40 the spec expects — the `elif growth_rate < 0: score -= 10`
branch of the source is unreachable because `growth_rate < 5` is tested
first, so a negative rate only subtracts 5. -/
theorem negative_growth_scores_45 :
    calculate_validation_score
      [("market_trends", PyVal.dict [("growth_rate", .num (-1))])] [] [] []
      = some 45 := by decide

/-- C4 counterexample: the score computation is not total and absent nested
fields do not all contribute zero — an mvp payload whose `development_time`
dict lacks `"weeks"` makes it raise `KeyError`, and a `cost_estimate` dict
lacking `"min"` scores 55 (the `.get("min", 0)` default adds 5) while
omitting the dict entirely scores 50. -/
theorem score_absent_fields_cex :
    calculate_validation_score [] [] [] [("development_time", PyVal.dict [])] = none ∧
    calculate_validation_score [] [] [] [("cost_estimate", PyVal.dict [])] = some 55 ∧
    calculate_validation_score [] [] [] [] = some 50 := by
  refine ⟨by decide, by decide, by decide⟩

/-- C4 amended: absent top-level payload keys contribute zero, but the MVP
block is special — a present `development_time` dict without a `"weeks"`
key raises, and a present `cost_estimate` dict without `"min"` adds 5
(it is scored as cost 0), rather than being skipped. -/
theorem score_absent_fields_amended (m c p : PyDict) (ce : List (String × PyVal))
    (h : plookup ce "min" = none) :
    calculate_validation_score m c p [("development_time", PyVal.dict [])] = none ∧
    calculate_validation_score m c p [("cost_estimate", PyVal.dict ce)] =
      Option.map (fun s => pymax 0 (pymin 100 (s + 5)))
        (Option.bind (Option.bind (scoreMarket m 50) (scoreCompetitor c)) (scorePersona p)) ∧
    calculate_validation_score m c p [] =
      Option.map (fun s => pymax 0 (pymin 100 s))
        (Option.bind (Option.bind (scoreMarket m 50) (scoreCompetitor c)) (scorePersona p)) := by
  refine ⟨calc_mvp_none m c p _ (fun s => rfl), ?_, ?_⟩
  · exact calc_mvp_some m c p _ (fun s => s + 5)
      (fun s => by simp [scoreMvp, plookup, pyGet, h, asNum])
  · exact calc_mvp_some m c p [] (fun s => s) (fun s => rfl)

/-- C4 amended, witness: the three behaviours at empty payloads. -/
theorem score_absent_fields_amended_witness :
    calculate_validation_score [] [] [] [("development_time", PyVal.dict [])] = none ∧
    calculate_validation_score [] [] [] [("cost_estimate", PyVal.dict [])] =
      Option.map (fun s => pymax 0 (pymin 100 (s + 5)))
        (Option.bind (Option.bind (scoreMarket [] 50) (scoreCompetitor [])) (scorePersona [])) ∧
    calculate_validation_score [] [] [] [] =
      Option.map (fun s => pymax 0 (pymin 100 s))
        (Option.bind (Option.bind (scoreMarket [] 50) (scoreCompetitor [])) (scorePersona [])) :=
  score_absent_fields_amended [] [] [] [] rfl

/-- C5: with `maxRetries ≥ 1` the Execution Guard invokes the agent at
least once and at most `maxRetries` times, and any `succeeded=true` result
comes after at least one invocation. -/
theorem run_agent_invocation_bounds (name : String) (attempts : Nat → AgentAttempt)
    (mr : Nat) (saveI : Bool) (curWf : Option String) (o : AgentOutput) (h : 1 ≤ mr) :
    1 ≤ (run_agent name attempts mr saveI curWf).2.1 ∧
    (run_agent name attempts mr saveI curWf).2.1 ≤ mr ∧
    ((run_agent name attempts mr saveI curWf).1 = some o → o.success = true →
      1 ≤ (run_agent name attempts mr saveI curWf).2.1) := by
  have hb := run_agent_loop_bounds name attempts mr saveI curWf mr 0
  exact ⟨hb.2 h, hb.1, fun _ _ => hb.2 h⟩

/-- C5 witness: a single immediately-successful attempt with
`maxRetries = 1`. -/
theorem run_agent_invocation_bounds_witness :
    1 ≤ (run_agent "a" (fun _ => .returns (.value [])) 1 false none).2.1 ∧
    (run_agent "a" (fun _ => .returns (.value [])) 1 false none).2.1 ≤ 1 ∧
    ((run_agent "a" (fun _ => .returns (.value [])) 1 false none).1 =
        some ⟨"a", "result", [], true, none⟩ →
      (AgentOutput.success ⟨"a", "result", [], true, none⟩) = true →
      1 ≤ (run_agent "a" (fun _ => .returns (.value [])) 1 false none).2.1) :=
  run_agent_invocation_bounds "a" (fun _ => .returns (.value [])) 1 false none
    ⟨"a", "result", [], true, none⟩ (by omega)

/-- C6 counterexample: when every attempt times out the guard's returned
error message is `str(asyncio.TimeoutError())` — the empty string — so the
result is byte-for-byte identical to the result of an agent that raises an
exception whose message is empty: timeout is not distinguishable from an
exception in the returned message. -/
theorem run_agent_timeout_message_cex :
    run_agent "a" (fun _ => AgentAttempt.timeout) 2 false none =
      run_agent "a" (fun _ => AgentAttempt.raises "") 2 false none ∧
    (run_agent "a" (fun _ => AgentAttempt.timeout) 2 false none).1 =
      some ⟨"a", "error", [("error", PyVal.str "")], false, none⟩ := ⟨rfl, rfl⟩

/-- C6 amended: if every attempt times out, the guard returns normally
(raising nothing) after exactly `maxRetries` invocations, with
`succeeded=false`, message type "error" and error content the empty string
(the `str` of the `TimeoutError`) — a message that does not specifically
indicate a timeout. -/
theorem run_agent_all_timeouts_amended (name : String) (attempts : Nat → AgentAttempt)
    (mr : Nat) (saveI : Bool) (curWf : Option String)
    (h : 1 ≤ mr) (hto : ∀ j, attempts j = AgentAttempt.timeout) :
    run_agent name attempts mr saveI curWf = (some (errorOutput name ""), mr, []) :=
  run_agent_loop_all_timeouts name attempts mr saveI curWf hto mr 0 (by omega) h

/-- C6 amended, witness: two timed-out attempts. -/
theorem run_agent_all_timeouts_amended_witness :
    run_agent "a" (fun _ => AgentAttempt.timeout) 2 false none =
      (some (errorOutput "a" ""), 2, []) :=
  run_agent_all_timeouts_amended "a" (fun _ => AgentAttempt.timeout) 2 false none
    (by omega) (fun _ => rfl)

/-- C7 counterexample: with intermediate-result persistence enabled and a
workflow active, a guard call whose every attempt raises stores nothing in
the checkpoint store — the result is NOT checkpointed regardless of success
or failure. -/
theorem run_agent_failed_call_saves_nothing_cex :
    (run_agent "a" (fun _ => AgentAttempt.raises "x") 3 true (some "wf")).2.2 = [] ∧
    (run_agent "a" (fun _ => AgentAttempt.raises "x") 3 true (some "wf")).1 =
      some ⟨"a", "error", [("error", PyVal.str "x")], false, none⟩ := ⟨rfl, rfl⟩

/-- C7 amended: with persistence enabled and a (truthy) workflow active,
the guard checkpoints under `{workflow}_{agent}` exactly the raw result of
the successful attempt — and when every attempt fails it checkpoints
nothing. -/
theorem run_agent_checkpoint_amended (name w : String)
    (attempts attempts2 : Nat → AgentAttempt) (mr k : Nat) (r : AgentRet)
    (hw : w ≠ "") (hk : k < mr) (hret : attempts k = .returns r)
    (hfail : ∀ j, j < k → (attempts j).fails = true)
    (hfail2 : ∀ j, j < mr → (attempts2 j).fails = true) :
    (run_agent name attempts mr true (some w)).2.2 = [(w ++ "_" ++ name, r)] ∧
    (run_agent name attempts2 mr true (some w)).2.2 = [] :=
  ⟨run_agent_loop_saves_success name w attempts mr k r hw hk hret hfail mr 0
      (by omega) (by omega),
   run_agent_loop_saves_fail name attempts2 mr true (some w) hfail2 mr 0 (by omega)⟩

/-- C7 amended, witness: one failing then one successful attempt
checkpoints under "wf_a"; two failing attempts checkpoint nothing. -/
theorem run_agent_checkpoint_amended_witness :
    (run_agent "a" (fun i => if i = 0 then .raises "x" else .returns (.value []))
        2 true (some "wf")).2.2 = [("wf_a", AgentRet.value [])] ∧
    (run_agent "a" (fun _ => AgentAttempt.raises "x") 2 true (some "wf")).2.2 = [] :=
  run_agent_checkpoint_amended "a" "wf"
    (fun i => if i = 0 then .raises "x" else .returns (.value []))
    (fun _ => AgentAttempt.raises "x") 2 1 (.value [])
    (by decide) (by omega) rfl
    (by intro j hj; interval_cases j; rfl)
    (by intro j hj; interval_cases j <;> rfl)

/-- C8 counterexample: a tool whose very first attempt returns the mapping
`{status: "error", message: "boom"}` has that mapping handed back unchanged
by `run_tool` after exactly one invocation — the status-error payload is
not treated as a failed attempt, not retried, and not replaced by a guard
failure report. -/
theorem run_tool_status_error_passthrough_cex :
    run_tool "t" (fun _ => ToolAttempt.returns
        (.dict [("status", .str "error"), ("message", .str "boom")])) 3 false none =
      (some (.dict [("status", .str "error"), ("message", .str "boom")]), 1, []) := rfl

/-- C8 amended: `run_tool` treats only timeouts and raised exceptions as
failed attempts; whatever value the first attempt returns — including a
`{status: "error"}` mapping — is passed through as the call's result after
exactly one invocation. -/
theorem run_tool_first_return_amended (name : String) (attempts : Nat → ToolAttempt)
    (mr : Nat) (saveI : Bool) (curWf : Option String) (v : PyVal)
    (h : 1 ≤ mr) (hret : attempts 0 = .returns v) :
    (run_tool name attempts mr saveI curWf).1 = some v ∧
    (run_tool name attempts mr saveI curWf).2.1 = 1 := by
  cases mr with
  | zero => omega
  | succ n =>
    unfold run_tool run_tool_loop
    rw [hret]
    simp

/-- C8 amended, witness: the status-error mapping of the counterexample is
returned after one invocation. -/
theorem run_tool_first_return_amended_witness :
    (run_tool "t" (fun _ => ToolAttempt.returns
        (.dict [("status", .str "error"), ("message", .str "boom")])) 3 false none).1 =
      some (.dict [("status", .str "error"), ("message", .str "boom")]) ∧
    (run_tool "t" (fun _ => ToolAttempt.returns
        (.dict [("status", .str "error"), ("message", .str "boom")])) 3 false none).2.1 = 1 :=
  run_tool_first_return_amended "t" _ 3 false none
    (.dict [("status", .str "error"), ("message", .str "boom")]) (by omega) rfl

/-- C9 counterexample: when market research succeeds with an EMPTY payload
and competitor analysis fails, the error report omits the
`market_analysis` key entirely (`if market_data:` is false for an empty
dict), so the report does not contain the market payload. -/
theorem competitor_fail_empty_market_cex :
    Option.map (fun rep => plookup rep "market_analysis")
      (workflow_full_validation false "" ⟨"X", "d", none, none, none, none, none, none⟩ "T"
        ⟨"market_researcher", "result", [], true, none⟩
        ⟨"competitor_analyzer", "error", [("error", PyVal.str "b")], false, none⟩
        ⟨"customer_persona_generator", "result", [], true, none⟩
        ⟨"mvp_planner", "result", [], true, none⟩) = some none := rfl

/-- C9 amended: when market research succeeds and competitor analysis
fails, the full-validation pipeline returns the competitor-failure error
report: it carries `success=false`, the error message, the idea, no
persona key and no mvp key, and it carries the market payload under
`market_analysis` exactly when that payload is non-empty. -/
theorem competitor_fail_report_amended (hitl : Bool) (ans : String)
    (idea : StartupIdea) (ts : String) (mr cr pr vr : AgentOutput)
    (hm : mr.success = true) (hc : cr.success = false) :
    workflow_full_validation hitl ans idea ts mr cr pr vr =
      some (competitor_fail_report idea ts mr.content) ∧
    plookup (competitor_fail_report idea ts mr.content) "success" = some (.bool false) ∧
    plookup (competitor_fail_report idea ts mr.content) "error" =
      some (.str "Competitor analysis failed") ∧
    plookup (competitor_fail_report idea ts mr.content) "idea" = some (ideaDict idea) ∧
    plookup (competitor_fail_report idea ts mr.content) "customer_personas" = none ∧
    plookup (competitor_fail_report idea ts mr.content) "mvp_plan" = none ∧
    (mr.content.isEmpty = false →
      plookup (competitor_fail_report idea ts mr.content) "market_analysis" =
        some (.dict mr.content)) ∧
    (mr.content.isEmpty = true →
      plookup (competitor_fail_report idea ts mr.content) "market_analysis" = none) := by
  constructor
  · unfold workflow_full_validation competitor_fail_report
    simp [hm, hc]
  · unfold competitor_fail_report generate_error_report
    cases hE : mr.content.isEmpty <;> simp [plookup, hE]

/-- C9 amended, witness: a successful market stage with a non-empty payload
followed by a failed competitor stage. -/
theorem competitor_fail_report_amended_witness :
    workflow_full_validation false "" ⟨"X", "d", none, none, none, none, none, none⟩ "T"
      ⟨"market_researcher", "result", [("m", PyVal.num 1)], true, none⟩
      ⟨"competitor_analyzer", "error", [("error", PyVal.str "b")], false, none⟩
      ⟨"customer_persona_generator", "result", [], true, none⟩
      ⟨"mvp_planner", "result", [], true, none⟩ =
      some (competitor_fail_report ⟨"X", "d", none, none, none, none, none, none⟩ "T"
        [("m", PyVal.num 1)]) ∧
    plookup (competitor_fail_report ⟨"X", "d", none, none, none, none, none, none⟩ "T"
      [("m", PyVal.num 1)]) "success" = some (.bool false) ∧
    plookup (competitor_fail_report ⟨"X", "d", none, none, none, none, none, none⟩ "T"
      [("m", PyVal.num 1)]) "error" = some (.str "Competitor analysis failed") ∧
    plookup (competitor_fail_report ⟨"X", "d", none, none, none, none, none, none⟩ "T"
      [("m", PyVal.num 1)]) "idea" =
      some (ideaDict ⟨"X", "d", none, none, none, none, none, none⟩) ∧
    plookup (competitor_fail_report ⟨"X", "d", none, none, none, none, none, none⟩ "T"
      [("m", PyVal.num 1)]) "customer_personas" = none ∧
    plookup (competitor_fail_report ⟨"X", "d", none, none, none, none, none, none⟩ "T"
      [("m", PyVal.num 1)]) "mvp_plan" = none ∧
    (List.isEmpty [(("m" : String), PyVal.num 1)] = false →
      plookup (competitor_fail_report ⟨"X", "d", none, none, none, none, none, none⟩ "T"
        [("m", PyVal.num 1)]) "market_analysis" = some (.dict [("m", PyVal.num 1)])) ∧
    (List.isEmpty [(("m" : String), PyVal.num 1)] = true →
      plookup (competitor_fail_report ⟨"X", "d", none, none, none, none, none, none⟩ "T"
        [("m", PyVal.num 1)]) "market_analysis" = none) :=
  competitor_fail_report_amended false "" ⟨"X", "d", none, none, none, none, none, none⟩
    "T" ⟨"market_researcher", "result", [("m", PyVal.num 1)], true, none⟩
    ⟨"competitor_analyzer", "error", [("error", PyVal.str "b")], false, none⟩
    ⟨"customer_persona_generator", "result", [], true, none⟩
    ⟨"mvp_planner", "result", [], true, none⟩ rfl rfl

/-- C10 counterexample: after a successful `execute_workflow` run with
persistence enabled, the engine's results store still holds the archived
`final_result` — the results mapping is NOT cleared when execution ends
(only the workflow name is). -/
theorem execute_workflow_store_kept_cex :
    (execute_workflow "wf" true true (fun _ s => (Except.ok (PyVal.num 1), s))
        ⟨some "old", [("x", PyVal.num 2)]⟩).2 =
      ⟨none, [("final_result", PyVal.num 1)]⟩ ∧
    (execute_workflow "wf" true true (fun _ s => (Except.ok (PyVal.num 1), s))
        ⟨some "old", [("x", PyVal.num 2)]⟩).2.results_store.isEmpty = false := ⟨rfl, rfl⟩

/-- C10 amended: the execution context is reset when a run begins — the
outcome is independent of whatever state the engine held before, and the
body observes an empty results store — and on exit (normal return or
raise) the workflow name is cleared to `None`; the results store, however,
persists after the run with whatever the run accumulated. -/
theorem execute_workflow_context_amended (n : String) (saveI : Bool)
    (body : Option String → List (String × PyVal) →
      Except String PyVal × List (String × PyVal))
    (st st2 : OrchState) :
    execute_workflow n true saveI body st = execute_workflow n true saveI body st2 ∧
    (execute_workflow n true saveI body st).2.current_workflow = none := by
  unfold execute_workflow
  refine ⟨rfl, ?_⟩
  rcases hb : body (some n) [] with ⟨res, store1⟩
  cases res <;> simp [hb]

end MSVA
